import Mathlib

/-!
Shallow embedding of the `OllamaBenchmark` load-testing harness
(`fufan_deepseek_agent/llm_backend/app/test/ollama_benchmark.py`).

Network and host effects are inputs: every HTTP exchange performed by
`single_request` is abstracted as an `HttpOutcome`, and every host-metric
sample taken by `check_system_health` is abstracted as a `HealthInput`.
Python floats are embedded as exact rationals (ℚ).  The adaptive prober
`find_max_concurrency` consumes one `RoundEnv` (pre-round health sample,
gathered probe responses, wall-clock span, post-round health sample) per
loop iteration and additionally records a trace of `LoopEvent`s (cooldown
sleeps and round attempts) so that temporal claims about the loop can be
stated as facts about the returned trace.
-/

/-- The three performance fields read (with `.get(_, 0)` defaults) from the
parsed JSON body of a `/api/generate` response; durations in nanoseconds. -/
structure GenerateJson where
  eval_count : Option Nat
  eval_duration : Option Nat
  total_duration : Option Nat
  deriving DecidableEq, Repr

/-- Outcome of the HTTP exchange inside `single_request`: either the request
raised before a body could be parsed (transport error), or a response with a
status code arrived and its body either parsed to JSON (`some`) or raised a
parse error (`none`). -/
inductive HttpOutcome where
  | transportError (msg : String)
  | response (status : Nat) (body : Option GenerateJson)
  deriving DecidableEq, Repr

/-- The dictionary returned by `single_request`: a success record with the
computed metrics, or a failure record with the error string. -/
inductive ProbeResult where
  | success (eval_count : Nat)
      (eval_duration_seconds total_duration_seconds tokens_per_second : ℚ)
  | failure (error : String)
  deriving DecidableEq, Repr

/-- The `success` flag of a probe result. -/
def ProbeResult.isSuccess : ProbeResult → Bool
  | .success _ _ _ _ => true
  | .failure _ => false

/-- The `eval_count` field of a probe result (only read on successes). -/
def ProbeResult.eval_count : ProbeResult → Nat
  | .success ec _ _ _ => ec
  | .failure _ => 0

/-- The `eval_duration_seconds` field of a probe result. -/
def ProbeResult.eval_duration_seconds : ProbeResult → ℚ
  | .success _ ed _ _ => ed
  | .failure _ => 0

/-- The `total_duration_seconds` field of a probe result. -/
def ProbeResult.total_duration_seconds : ProbeResult → ℚ
  | .success _ _ td _ => td
  | .failure _ => 0

/-- The `tokens_per_second` field of a probe result. -/
def ProbeResult.tokens_per_second : ProbeResult → ℚ
  | .success _ _ _ tps => tps
  | .failure _ => 0

/-- `OllamaBenchmark.single_request`: issues one generate call and converts
the outcome into a probe-result dictionary.  The `try` block covers the whole
exchange, so a transport or body-parse exception becomes a failure record;
otherwise the three metric fields are read with default `0` and the derived
`tokens_per_second` is guarded against a zero `eval_duration`.  Note that the
HTTP status code of the response is never inspected. -/
def single_request (o : HttpOutcome) : ProbeResult :=
  match o with
  | .transportError msg => .failure msg
  | .response _ none => .failure "response body did not parse as JSON"
  | .response _ (some j) =>
    let ec := j.eval_count.getD 0
    let ed := j.eval_duration.getD 0
    let td := j.total_duration.getD 0
    let tps : ℚ := if ed > 0 then (ec : ℚ) / (ed : ℚ) * 1000000000 else 0
    .success ec ((ed : ℚ) / 1000000000) ((td : ℚ) / 1000000000) tps

/-- The result dictionary built by `test_concurrent_requests` when at least
one probe succeeded. -/
structure RoundSummary where
  concurrent_requests : Nat
  total_requests : Nat
  success_rate : ℚ
  total_tokens : Nat
  average_generation_time : ℚ
  average_total_time : ℚ
  average_tokens_per_second : ℚ
  actual_total_time : ℚ
  system_throughput : ℚ
  deriving DecidableEq, Repr

/-- `OllamaBenchmark.test_concurrent_requests`: the aggregation it performs
once `asyncio.gather` has returned all `total_requests` responses.
`responses` is the gathered list and `actual_time` the measured wall-clock
span `end_time - start_time`.  Returns `none` (Python `None`) when no probe
succeeded, otherwise the statistics dictionary: averages over the successful
probes only, `success_rate` over all requested probes, and
`system_throughput` as total successful tokens over the wall-clock span. -/
def test_concurrent_requests (concurrent_requests total_requests : Nat)
    (responses : List ProbeResult) (actual_time : ℚ) : Option RoundSummary :=
  let successful := responses.filter ProbeResult.isSuccess
  if successful.isEmpty then none
  else
    let total_tokens := (successful.map ProbeResult.eval_count).sum
    some
      { concurrent_requests := concurrent_requests
        total_requests := total_requests
        success_rate := (successful.length : ℚ) / (total_requests : ℚ)
        total_tokens := total_tokens
        average_generation_time :=
          (successful.map ProbeResult.eval_duration_seconds).sum / (successful.length : ℚ)
        average_total_time :=
          (successful.map ProbeResult.total_duration_seconds).sum / (successful.length : ℚ)
        average_tokens_per_second :=
          (successful.map ProbeResult.tokens_per_second).sum / (successful.length : ℚ)
        actual_total_time := actual_time
        system_throughput := (total_tokens : ℚ) / actual_time }

/-- One line of `nvidia-smi --query-gpu=index,memory.used,memory.total,memory.free`
output, already split and converted to numbers. -/
structure GpuReading where
  index : ℚ
  used : ℚ
  total : ℚ
  free : ℚ
  deriving DecidableEq, Repr

/-- The host-metric sample consumed by one call of `check_system_health`:
whether the psutil calls themselves raised (`outerExn`), the sampled CPU and
memory percentages, and the GPU query result (`none` models `nvidia-smi`
missing or exiting non-zero, in which case the GPU loop never runs). -/
structure HealthInput where
  outerExn : Bool
  cpu_percent : ℚ
  memory_percent : ℚ
  gpuQuery : Option (List GpuReading)
  deriving DecidableEq, Repr

/-- One entry of the `gpu_info` list in the metrics dictionary. -/
structure GpuInfo where
  id : Int
  memory_used : ℚ
  memory_total : ℚ
  memory_free : ℚ
  memory_percent : ℚ
  deriving DecidableEq, Repr

/-- The GPU `for` loop of `check_system_health`: builds `gpu_info` entries
and flips `is_healthy` to `False` whenever a device's memory utilisation
exceeds 90%.  A reading with `total = 0` raises `ZeroDivisionError`, which
the surrounding `except` catches: the loop aborts, keeping the entries
appended and the health flag computed so far.  (`nvidia-smi` indices are
nonnegative, so Python's `int()` truncation is floor here.) -/
def processGpus : List GpuReading → Bool → List GpuInfo × Bool
  | [], is_healthy => ([], is_healthy)
  | g :: rest, is_healthy =>
    if g.total = 0 then ([], is_healthy)
    else
      let memory_percent := g.used / g.total * 100
      let h1 := if memory_percent > 90 then false else is_healthy
      let next := processGpus rest h1
      (⟨g.index.floor, g.used, g.total, g.free, memory_percent⟩ :: next.1, next.2)

/-- The metrics dictionary returned by `check_system_health`. -/
structure HealthMetrics where
  cpu_percent : ℚ
  memory_percent : ℚ
  gpu_info : List GpuInfo
  deriving DecidableEq, Repr

/-- `OllamaBenchmark.check_system_health`: returns `(is_healthy, metrics)`.
An exception in the psutil sampling itself yields `(False, {})` — the empty
dictionary is modelled as `none` since it carries no keys.  Otherwise
`is_healthy` starts as `cpu < 90 ∧ memory < 90` and the GPU loop (when the
query ran) may flip it to `False`; GPU-tooling failure is swallowed and
leaves the CPU/memory verdict intact. -/
def check_system_health (inp : HealthInput) : Bool × Option HealthMetrics :=
  if inp.outerExn then (false, none)
  else
    let is_healthy := decide (inp.cpu_percent < 90) && decide (inp.memory_percent < 90)
    match inp.gpuQuery with
    | none => (is_healthy, some ⟨inp.cpu_percent, inp.memory_percent, []⟩)
    | some gs =>
      let looped := processGpus gs is_healthy
      (looped.2, some ⟨inp.cpu_percent, inp.memory_percent, looped.1⟩)

/-- The per-iteration environment of the `find_max_concurrency` loop: the
pre-round health sample, the probe responses the round would gather, the
round's wall-clock span, and the post-round health sample. -/
structure RoundEnv where
  health1 : HealthInput
  responses : List ProbeResult
  actual_time : ℚ
  health2 : HealthInput
  deriving DecidableEq, Repr

/-- The dictionary returned by `find_max_concurrency`. -/
structure SearchResult where
  optimal_concurrent : Nat
  max_throughput : ℚ
  all_results : List RoundSummary
  deriving DecidableEq, Repr

/-- Observable events of one run of the prober loop: the 30-second recovery
sleep, the 5-second inter-round sleep, taking the emergency-stop branch, and
attempting a round at a given concurrency. -/
inductive LoopEvent where
  | sleepExtended
  | sleepShort
  | emergencyStop
  | roundRun (concurrent : Nat)
  deriving DecidableEq, Repr

/-- The best-level update of `find_max_concurrency` (lines 354-359): the
`(optimal_concurrent, max_throughput)` pair is replaced by the current round
exactly when the round meets both thresholds and strictly beats the recorded
throughput. -/
def update_best (success_rate_threshold latency_threshold : ℚ) (concurrent : Nat)
    (r : RoundSummary) (optimal_concurrent : Nat) (max_throughput : ℚ) : Nat × ℚ :=
  if r.success_rate ≥ success_rate_threshold ∧
      r.average_generation_time ≤ latency_threshold ∧
      r.system_throughput > max_throughput
  then (concurrent, r.system_throughput)
  else (optimal_concurrent, max_throughput)

/-- The body of the `for concurrent in range(start, max+1)` loop of
`find_max_concurrency`, one `RoundEnv` consumed per iteration.  Arguments
after the environment list: current concurrency, accumulated `results` (in
reverse push order), `optimal_concurrent`, `max_throughput`,
`consecutive_failures`.  The value is `none` exactly when the Python code
would raise (a `KeyError` on the metrics dictionary); otherwise the final
result together with the trace of loop events. -/
def fmc_go (success_rate_threshold latency_threshold : ℚ) (requests_per_test maxc : Nat) :
    List RoundEnv → Nat → List RoundSummary → Nat → ℚ → Nat →
    Option (SearchResult × List LoopEvent)
  | [], _, results, opt, mtp, _ => some (⟨opt, mtp, results.reverse⟩, [])
  | env :: rest, concurrent, results, opt, mtp, consecutive_failures =>
    if maxc < concurrent then some (⟨opt, mtp, results.reverse⟩, [])
    else
      match check_system_health env.health1 with
      | (false, _) =>
        -- 系统负载过高: sleep 30s then break
        some (⟨opt, mtp, results.reverse⟩, [.sleepExtended])
      | (true, none) =>
        -- metrics["cpu_percent"] on a keyless dictionary would raise
        none
      | (true, some m) =>
        if m.cpu_percent > 90 ∨ m.memory_percent > 90 then
          -- 紧急停止: break with no sleep
          some (⟨opt, mtp, results.reverse⟩, [.emergencyStop])
        else
          match test_concurrent_requests concurrent requests_per_test
              env.responses env.actual_time with
          | none =>
            if consecutive_failures + 1 ≥ 2 then
              some (⟨opt, mtp, results.reverse⟩, [.roundRun concurrent])
            else
              (fmc_go success_rate_threshold latency_threshold requests_per_test maxc
                  rest (concurrent + 1) results opt mtp (consecutive_failures + 1)).map
                (fun out => (out.1, .roundRun concurrent :: out.2))
          | some r =>
            let best := update_best success_rate_threshold latency_threshold
              concurrent r opt mtp
            if r.success_rate < success_rate_threshold ∨
                r.average_generation_time > latency_threshold then
              some (⟨best.1, best.2, (r :: results).reverse⟩, [.roundRun concurrent])
            else
              let sleepEv := if (check_system_health env.health2).1
                then LoopEvent.sleepShort else LoopEvent.sleepExtended
              (fmc_go success_rate_threshold latency_threshold requests_per_test maxc
                  rest (concurrent + 1) (r :: results) best.1 best.2 0).map
                (fun out => (out.1, .roundRun concurrent :: sleepEv :: out.2))

/-- `OllamaBenchmark.find_max_concurrency`: runs the adaptive loop from
`start_concurrent` with empty accumulators. -/
def find_max_concurrency (start_concurrent max_concurrent requests_per_test : Nat)
    (success_rate_threshold latency_threshold : ℚ) (envs : List RoundEnv) :
    Option (SearchResult × List LoopEvent) :=
  fmc_go success_rate_threshold latency_threshold requests_per_test max_concurrent
    envs start_concurrent [] 0 0 0

/-- Once the health flag is `false`, the GPU loop can never restore it. -/
lemma processGpus_snd_false (gs : List GpuReading) : (processGpus gs false).2 = false := by
  induction gs with
  | nil => rfl
  | cons g rest ih =>
    by_cases h0 : g.total = 0
    · simp [processGpus, h0]
    · simp [processGpus, h0, ite_self, ih]

/-- The GPU loop only ever lowers the health flag. -/
lemma processGpus_snd_true (gs : List GpuReading) (h : Bool)
    (ht : (processGpus gs h).2 = true) : h = true := by
  induction gs generalizing h with
  | nil => exact ht
  | cons g rest ih =>
    by_cases h0 : g.total = 0
    · simpa [processGpus, h0] using ht
    · have h1 := ih _ (by simpa [processGpus, h0] using ht)
      by_cases hm : g.used / g.total * 100 > 90
      · simp [hm] at h1
      · simpa [hm] using h1

/-- Characterisation of the GPU loop's health verdict on well-formed
readings (positive memory totals): it keeps the incoming flag and checks
that no device exceeds 90% memory utilisation. -/
lemma processGpus_snd_true_iff (gs : List GpuReading) (h : Bool)
    (hpos : ∀ g ∈ gs, 0 < g.total) :
    (processGpus gs h).2 = true ↔
      (h = true ∧ ∀ g ∈ gs, g.used / g.total * 100 ≤ 90) := by
  induction gs generalizing h with
  | nil => simp [processGpus]
  | cons g rest ih =>
    have h0 : g.total ≠ 0 := ne_of_gt (hpos g (by simp))
    have hrest : ∀ x ∈ rest, 0 < x.total := fun x hx => hpos x (by simp [hx])
    by_cases hm : g.used / g.total * 100 > 90
    · have : ¬ (g.used / g.total * 100 ≤ 90) := not_le.mpr hm
      simp [processGpus, h0, hm, processGpus_snd_false, this]
    · simp [processGpus, h0, hm, ih _ hrest, not_lt.mp hm, and_assoc]

/-- A healthy verdict always comes with a metrics dictionary whose CPU and
memory readings are the sampled ones and are strictly below 90. -/
lemma healthy_metrics (inp : HealthInput) (hh : (check_system_health inp).1 = true) :
    ∃ m, (check_system_health inp).2 = some m ∧
      m.cpu_percent = inp.cpu_percent ∧ m.memory_percent = inp.memory_percent ∧
      m.cpu_percent < 90 ∧ m.memory_percent < 90 := by
  by_cases he : inp.outerExn
  · simp [check_system_health, he] at hh
  · cases hq : inp.gpuQuery with
    | none =>
      simp [check_system_health, he, hq] at hh ⊢
      exact ⟨hh.1, hh.2⟩
    | some gs =>
      simp only [check_system_health, he, hq, Bool.false_eq_true, if_false] at hh ⊢
      have h2 := processGpus_snd_true gs _ hh
      simp only [Bool.and_eq_true, decide_eq_true_eq] at h2
      exact ⟨_, rfl, rfl, rfl, h2.1, h2.2⟩

/-- One-step unfolding of the loop body when the pre-round health gate
passes: the emergency branch cannot fire (healthy implies CPU and memory
below 90), so control reaches the round itself. -/
lemma fmc_go_healthy_step (srt lt : ℚ) (rpt maxc : Nat) (env : RoundEnv)
    (rest : List RoundEnv) (c : Nat) (results : List RoundSummary) (opt : Nat)
    (mtp : ℚ) (cf : Nat) (hc : c ≤ maxc)
    (hh : (check_system_health env.health1).1 = true) :
    fmc_go srt lt rpt maxc (env :: rest) c results opt mtp cf =
      match test_concurrent_requests c rpt env.responses env.actual_time with
      | none =>
        if cf + 1 ≥ 2 then some (⟨opt, mtp, results.reverse⟩, [LoopEvent.roundRun c])
        else (fmc_go srt lt rpt maxc rest (c + 1) results opt mtp (cf + 1)).map
          (fun out => (out.1, LoopEvent.roundRun c :: out.2))
      | some r =>
        if r.success_rate < srt ∨ r.average_generation_time > lt then
          some (⟨(update_best srt lt c r opt mtp).1, (update_best srt lt c r opt mtp).2,
            (r :: results).reverse⟩, [LoopEvent.roundRun c])
        else
          (fmc_go srt lt rpt maxc rest (c + 1) (r :: results)
              (update_best srt lt c r opt mtp).1 (update_best srt lt c r opt mtp).2 0).map
            (fun out => (out.1, LoopEvent.roundRun c ::
              (if (check_system_health env.health2).1 then LoopEvent.sleepShort
               else LoopEvent.sleepExtended) :: out.2)) := by
  obtain ⟨m, hm, _, _, hcpu, hmem⟩ := healthy_metrics _ hh
  have hpair : check_system_health env.health1 = (true, some m) := by
    rw [← hh, ← hm]
  have hnoemg : ¬ (m.cpu_percent > 90 ∨ m.memory_percent > 90) := by
    push_neg
    exact ⟨le_of_lt hcpu, le_of_lt hmem⟩
  simp only [fmc_go, hpair, not_lt.mpr hc, if_false, hnoemg]

/-- C7 counterexample: the claim says a non-success HTTP status yields a
failure-flagged probe result, but `single_request` never inspects the status:
a 500 response whose body parses as JSON comes back success-flagged. -/
theorem C7_counterexample :
    (single_request (HttpOutcome.response 500 (some ⟨none, none, none⟩))).isSuccess
        = true ∧
    ¬ (∀ status body, status ≠ 200 →
        (single_request (HttpOutcome.response status body)).isSuccess = false) := by
  constructor
  · simp [single_request, ProbeResult.isSuccess]
  · intro h
    have := h 500 (some ⟨none, none, none⟩) (by norm_num)
    simp [single_request, ProbeResult.isSuccess] at this

/-- C7 (amended): every invocation of `single_request` returns a probe
result and never raises; transport failures and response-parse failures
yield failure-flagged results carrying the error description, while any
response whose body parses as JSON — the HTTP status is never inspected —
yields a success-flagged result. -/
theorem C7_single_request_total (o : HttpOutcome) :
    (∀ msg, o = HttpOutcome.transportError msg →
      single_request o = ProbeResult.failure msg) ∧
    (∀ status, o = HttpOutcome.response status none →
      (single_request o).isSuccess = false ∧
      ∃ err, single_request o = ProbeResult.failure err) ∧
    (∀ status j, o = HttpOutcome.response status (some j) →
      (single_request o).isSuccess = true) := by
  refine ⟨?_, ?_, ?_⟩
  · rintro msg rfl
    simp [single_request]
  · rintro status rfl
    exact ⟨by simp [single_request, ProbeResult.isSuccess], _, rfl⟩
  · rintro status j rfl
    simp [single_request, ProbeResult.isSuccess]

/-- Witness for C7's amended theorem at a concrete transport failure. -/
theorem C7_single_request_total_witness :
    ((HttpOutcome.transportError "connection refused" : HttpOutcome) =
      HttpOutcome.transportError "connection refused") ∧
    single_request (HttpOutcome.transportError "connection refused") =
      ProbeResult.failure "connection refused" :=
  ⟨rfl, (C7_single_request_total (HttpOutcome.transportError "connection refused")).1
    "connection refused" rfl⟩

/-- C4: when a round produces a summary, its `success_rate` is the number of
success-flagged probes over the total number of probes requested (failures
stay in the denominator), hence lies in `[0, 1]`, while the three averages
are computed over the successful probes only. -/
theorem C4_success_rate_bounds (c tr : Nat) (responses : List ProbeResult) (t : ℚ)
    (hlen : responses.length = tr) (s : RoundSummary)
    (hs : test_concurrent_requests c tr responses t = some s) :
    s.success_rate = ((responses.filter ProbeResult.isSuccess).length : ℚ) / (tr : ℚ) ∧
    0 ≤ s.success_rate ∧ s.success_rate ≤ 1 ∧
    s.average_generation_time =
      ((responses.filter ProbeResult.isSuccess).map ProbeResult.eval_duration_seconds).sum /
        ((responses.filter ProbeResult.isSuccess).length : ℚ) ∧
    s.average_total_time =
      ((responses.filter ProbeResult.isSuccess).map ProbeResult.total_duration_seconds).sum /
        ((responses.filter ProbeResult.isSuccess).length : ℚ) ∧
    s.average_tokens_per_second =
      ((responses.filter ProbeResult.isSuccess).map ProbeResult.tokens_per_second).sum /
        ((responses.filter ProbeResult.isSuccess).length : ℚ) := by
  unfold test_concurrent_requests at hs
  by_cases hempty : (responses.filter ProbeResult.isSuccess).isEmpty
  · simp [hempty] at hs
  · rw [if_neg hempty] at hs
    have hrate : ((responses.filter ProbeResult.isSuccess).length : ℚ) / (tr : ℚ) ≤ 1 := by
      have hle : (responses.filter ProbeResult.isSuccess).length ≤ tr := by
        rw [← hlen]
        exact List.length_filter_le _ _
      exact div_le_one_of_le₀ (by exact_mod_cast hle) (by positivity)
    obtain rfl := (Option.some_inj.mp hs).symm
    exact ⟨rfl, by positivity, hrate, rfl, rfl, rfl⟩

/-- Witness for C4 at a concrete round of two probes with one success. -/
theorem C4_success_rate_bounds_witness :
    ([ProbeResult.success 10 1 2 3, ProbeResult.failure "e"] : List ProbeResult).length
        = 2 ∧
    test_concurrent_requests 1 2 [ProbeResult.success 10 1 2 3, ProbeResult.failure "e"] 1
        = some ⟨1, 2, 1 / 2, 10, 1, 2, 3, 1, 10⟩ ∧
    ((1 : ℚ) / 2 = ((1 : Nat) : ℚ) / ((2 : Nat) : ℚ) ∧ 0 ≤ (1 : ℚ) / 2 ∧ (1 : ℚ) / 2 ≤ 1) := by
  have hsum : test_concurrent_requests 1 2
      [ProbeResult.success 10 1 2 3, ProbeResult.failure "e"] 1
        = some ⟨1, 2, 1 / 2, 10, 1, 2, 3, 1, 10⟩ := by
    norm_num [test_concurrent_requests, ProbeResult.isSuccess, ProbeResult.eval_count,
      ProbeResult.eval_duration_seconds, ProbeResult.total_duration_seconds,
      ProbeResult.tokens_per_second]
  have h := C4_success_rate_bounds 1 2
    [ProbeResult.success 10 1 2 3, ProbeResult.failure "e"] 1 rfl
    ⟨1, 2, 1 / 2, 10, 1, 2, 3, 1, 10⟩ hsum
  refine ⟨rfl, hsum, h.1, h.2.1, h.2.2.1⟩

/-- C9: the round summary is a pure, order-independent aggregation — any
permutation of the gathered probe responses produces the same summary.  (In
the embedding the aggregation is only applied once the complete response
list of the round is available, mirroring the gather-then-summarise shape of
the code.) -/
theorem C9_summary_order_independent (c tr : Nat) (l1 l2 : List ProbeResult) (t : ℚ)
    (hp : l1.Perm l2) :
    test_concurrent_requests c tr l1 t = test_concurrent_requests c tr l2 t := by
  have hf : (l1.filter ProbeResult.isSuccess).Perm (l2.filter ProbeResult.isSuccess) :=
    hp.filter _
  have hlen := hf.length_eq
  simp only [test_concurrent_requests]
  by_cases h1 : (l1.filter ProbeResult.isSuccess).isEmpty
  · have h2 : (l2.filter ProbeResult.isSuccess).isEmpty = true := by
      rw [List.isEmpty_iff_length_eq_zero] at h1 ⊢
      rw [← hlen]
      exact h1
    simp [h1, h2]
  · have h2 : ¬ (l2.filter ProbeResult.isSuccess).isEmpty = true := by
      rw [List.isEmpty_iff_length_eq_zero] at h1 ⊢
      rw [← hlen]
      exact h1
    rw [if_neg h1, if_neg h2, hlen, (hf.map ProbeResult.eval_count).sum_eq,
      (hf.map ProbeResult.eval_duration_seconds).sum_eq,
      (hf.map ProbeResult.total_duration_seconds).sum_eq,
      (hf.map ProbeResult.tokens_per_second).sum_eq]

/-- Witness for C9 at a concrete transposition of a two-probe round. -/
theorem C9_summary_order_independent_witness :
    ([ProbeResult.failure "e", ProbeResult.success 10 1 2 3] : List ProbeResult).Perm
      [ProbeResult.success 10 1 2 3, ProbeResult.failure "e"] ∧
    test_concurrent_requests 2 2 [ProbeResult.failure "e", ProbeResult.success 10 1 2 3] 1 =
      test_concurrent_requests 2 2 [ProbeResult.success 10 1 2 3, ProbeResult.failure "e"] 1 :=
  ⟨List.Perm.swap _ _ _,
    C9_summary_order_independent 2 2 _ _ 1 (List.Perm.swap _ _ _)⟩

/-- The best-level update never decreases the recorded best throughput. -/
lemma update_best_snd_le (srt lt : ℚ) (c : Nat) (r : RoundSummary) (opt : Nat)
    (mtp : ℚ) : mtp ≤ (update_best srt lt c r opt mtp).2 := by
  unfold update_best
  split
  · next h => exact le_of_lt h.2.2
  · exact le_refl _

/-- Across a whole run of the loop the recorded best throughput never drops
below its starting value. -/
lemma fmc_go_mtp_le (srt lt : ℚ) (rpt maxc : Nat) (envs : List RoundEnv) :
    ∀ (c : Nat) (results : List RoundSummary) (opt : Nat) (mtp : ℚ) (cf : Nat) out,
      fmc_go srt lt rpt maxc envs c results opt mtp cf = some out →
      mtp ≤ out.1.max_throughput := by
  induction envs with
  | nil =>
    intro c results opt mtp cf out h
    simp only [fmc_go] at h
    injection h with h1
    subst h1
    exact le_refl _
  | cons env rest ih =>
    intro c results opt mtp cf out h
    simp only [fmc_go] at h
    split at h
    · injection h with h1
      subst h1
      exact le_refl _
    · split at h
      · injection h with h1
        subst h1
        exact le_refl _
      · exact absurd h (by simp)
      · split at h
        · injection h with h1
          subst h1
          exact le_refl _
        · split at h
          · split at h
            · injection h with h1
              subst h1
              exact le_refl _
            · obtain ⟨out', hout', hfo⟩ := Option.map_eq_some'.mp h
              subst hfo
              exact ih _ _ _ _ _ out' hout'
          · split at h
            · injection h with h1
              subst h1
              exact update_best_snd_le srt lt _ _ opt mtp
            · obtain ⟨out', hout', hfo⟩ := Option.map_eq_some'.mp h
              subst hfo
              exact le_trans (update_best_snd_le srt lt _ _ opt mtp)
                (ih _ _ _ _ _ out' hout')

/-- C2: the (best concurrency, best throughput) pair changes in a round
exactly when the round meets both thresholds and strictly beats the recorded
best throughput (so an equal-throughput round never displaces the best);
when it changes it becomes the current round's pair with a strictly larger
throughput, and across a run the recorded best throughput never decreases. -/
theorem C2_best_update_iff :
    (∀ (srt lt : ℚ) (c : Nat) (r : RoundSummary) (opt : Nat) (mtp : ℚ),
      update_best srt lt c r opt mtp ≠ (opt, mtp) ↔
        (r.success_rate ≥ srt ∧ r.average_generation_time ≤ lt ∧
          r.system_throughput > mtp)) ∧
    (∀ (srt lt : ℚ) (c : Nat) (r : RoundSummary) (opt : Nat) (mtp : ℚ),
      update_best srt lt c r opt mtp = (opt, mtp) ∨
        (update_best srt lt c r opt mtp = (c, r.system_throughput) ∧
          mtp < r.system_throughput)) ∧
    (∀ (srt lt : ℚ) (rpt maxc : Nat) (envs : List RoundEnv) (c : Nat)
        (results : List RoundSummary) (opt : Nat) (mtp : ℚ) (cf : Nat) out,
      fmc_go srt lt rpt maxc envs c results opt mtp cf = some out →
      mtp ≤ out.1.max_throughput) := by
  refine ⟨?_, ?_, ?_⟩
  · intro srt lt c r opt mtp
    unfold update_best
    split
    · next hcond =>
      constructor
      · intro _
        exact hcond
      · intro _ heq
        exact absurd (congrArg Prod.snd heq) (ne_of_gt hcond.2.2)
    · next hcond =>
      constructor
      · intro hne
        exact absurd rfl hne
      · intro hc
        exact absurd hc hcond
  · intro srt lt c r opt mtp
    unfold update_best
    split
    · next hcond => exact Or.inr ⟨rfl, hcond.2.2⟩
    · exact Or.inl rfl
  · intro srt lt rpt maxc envs
    exact fmc_go_mtp_le srt lt rpt maxc envs

/-- Witness for C2's run-level part on the empty environment. -/
theorem C2_best_update_iff_witness :
    fmc_go (8 / 10) 10 5 20 [] 1 [] 0 0 0 =
        some (⟨0, 0, []⟩, []) ∧
    (0 : ℚ) ≤ ((⟨0, 0, []⟩ : SearchResult), ([] : List LoopEvent)).1.max_throughput :=
  ⟨rfl, C2_best_update_iff.2.2 (8 / 10) 10 5 20 [] 1 [] 0 0 0 (⟨0, 0, []⟩, []) rfl⟩

/-- C8: barring an exception in the psutil sampling itself, the health
verdict is `healthy` iff CPU < 90 and memory < 90 and no GPU device with a
well-formed reading reports memory utilisation above 90%; when the GPU query
is unavailable the snapshot still succeeds with the GPU list empty and the
CPU/memory verdict intact; and the classification is a deterministic
function of the sampled metric inputs. -/
theorem C8_healthy_iff_thresholds (inp : HealthInput)
    (hexn : inp.outerExn = false)
    (hpos : ∀ g ∈ inp.gpuQuery.getD [], 0 < g.total) :
    ((check_system_health inp).1 = true ↔
      (inp.cpu_percent < 90 ∧ inp.memory_percent < 90 ∧
        ∀ g ∈ inp.gpuQuery.getD [], g.used / g.total * 100 ≤ 90)) ∧
    (inp.gpuQuery = none →
      (check_system_health inp).2 =
        some ⟨inp.cpu_percent, inp.memory_percent, []⟩) ∧
    (∀ inp2 : HealthInput, inp2 = inp →
      check_system_health inp2 = check_system_health inp) := by
  refine ⟨?_, ?_, fun inp2 h => by rw [h]⟩
  · cases hq : inp.gpuQuery with
    | none =>
      simp [check_system_health, hexn, hq]
    | some gs =>
      have hpos2 : ∀ g ∈ gs, 0 < g.total := by
        rw [hq] at hpos
        simpa using hpos
      simp only [check_system_health, hexn, Bool.false_eq_true, if_false, hq]
      rw [processGpus_snd_true_iff gs _ hpos2]
      simp [and_assoc]
  · intro hq
    simp [check_system_health, hexn, hq]

/-- Witness for C8 at a concrete sample: CPU 50%, memory 60%, one GPU at
40% memory utilisation — classified healthy. -/
theorem C8_healthy_iff_thresholds_witness :
    (HealthInput.mk false 50 60 (some [⟨0, 40, 100, 60⟩])).outerExn = false ∧
    (∀ g ∈ (HealthInput.mk false 50 60
        (some [⟨0, 40, 100, 60⟩])).gpuQuery.getD [], 0 < g.total) ∧
    ((check_system_health (HealthInput.mk false 50 60 (some [⟨0, 40, 100, 60⟩]))).1
        = true ↔
      ((50 : ℚ) < 90 ∧ (60 : ℚ) < 90 ∧
        ∀ g ∈ (HealthInput.mk false 50 60
          (some [⟨0, 40, 100, 60⟩])).gpuQuery.getD [], g.used / g.total * 100 ≤ 90)) := by
  have hpos : ∀ g ∈ (HealthInput.mk false 50 60
      (some [⟨0, 40, 100, 60⟩])).gpuQuery.getD [], 0 < g.total := by
    intro g hg
    simp only [Option.getD_some, List.mem_singleton] at hg
    subst hg
    norm_num
  exact ⟨rfl, hpos,
    (C8_healthy_iff_thresholds (HealthInput.mk false 50 60 (some [⟨0, 40, 100, 60⟩]))
      rfl hpos).1⟩

/-- If CPU or memory exceeds 90% the verdict is unhealthy (the base check
already fails, and the GPU loop can only lower the flag). -/
lemma check_system_health_false_of_over90 (inp : HealthInput)
    (hexn : inp.outerExn = false)
    (hgt : inp.cpu_percent > 90 ∨ inp.memory_percent > 90) :
    (check_system_health inp).1 = false := by
  have hbase : (decide (inp.cpu_percent < 90) && decide (inp.memory_percent < 90))
      = false := by
    rcases hgt with h | h
    · simp [not_lt.mpr (le_of_lt h)]
    · simp [not_lt.mpr (le_of_lt h)]
  cases hq : inp.gpuQuery with
  | none => simp [check_system_health, hexn, hq, hbase]
  | some gs => simp [check_system_health, hexn, hq, hbase, processGpus_snd_false]

/-- An unhealthy pre-round gate stops the loop before the round, after the
extended 30-second cooldown. -/
lemma fmc_go_unhealthy_stop (srt lt : ℚ) (rpt maxc : Nat) (env : RoundEnv)
    (rest : List RoundEnv) (c : Nat) (results : List RoundSummary) (opt : Nat)
    (mtp : ℚ) (cf : Nat) (hc : c ≤ maxc)
    (hh : (check_system_health env.health1).1 = false) :
    fmc_go srt lt rpt maxc (env :: rest) c results opt mtp cf =
      some (⟨opt, mtp, results.reverse⟩, [LoopEvent.sleepExtended]) := by
  rcases hck : check_system_health env.health1 with ⟨b, mo⟩
  rw [hck] at hh
  simp only at hh
  subst hh
  simp only [fmc_go, hck, not_lt.mpr hc, if_false]

/-- A threshold breach after a recorded round stops the loop with the best
pair untouched. -/
lemma update_best_of_breach (srt lt : ℚ) (c : Nat) (r : RoundSummary) (opt : Nat)
    (mtp : ℚ) (hbr : r.success_rate < srt ∨ r.average_generation_time > lt) :
    update_best srt lt c r opt mtp = (opt, mtp) := by
  unfold update_best
  rw [if_neg]
  rintro ⟨h1, h2, _⟩
  rcases hbr with hb | hb
  · exact absurd h1 (not_le.mpr hb)
  · exact absurd h2 (not_le.mpr hb)

/-- Threshold-breach stop: the round is recorded, the best pair is kept, and
the loop terminates at the current concurrency. -/
lemma fmc_go_breach_stop (srt lt : ℚ) (rpt maxc : Nat) (env : RoundEnv)
    (rest : List RoundEnv) (c : Nat) (results : List RoundSummary) (opt : Nat)
    (mtp : ℚ) (cf : Nat) (r : RoundSummary) (hc : c ≤ maxc)
    (hh : (check_system_health env.health1).1 = true)
    (htest : test_concurrent_requests c rpt env.responses env.actual_time = some r)
    (hbr : r.success_rate < srt ∨ r.average_generation_time > lt) :
    fmc_go srt lt rpt maxc (env :: rest) c results opt mtp cf =
      some (⟨opt, mtp, (r :: results).reverse⟩, [LoopEvent.roundRun c]) := by
  rw [fmc_go_healthy_step srt lt rpt maxc env rest c results opt mtp cf hc hh, htest]
  simp only [if_pos hbr, update_best_of_breach srt lt c r opt mtp hbr]

/-- First empty round (`consecutive_failures` entering at 0): the loop
advances to the next concurrency level without recording a summary. -/
lemma fmc_go_noresult_continue (srt lt : ℚ) (rpt maxc : Nat) (env : RoundEnv)
    (rest : List RoundEnv) (c : Nat) (results : List RoundSummary) (opt : Nat)
    (mtp : ℚ) (hc : c ≤ maxc)
    (hh : (check_system_health env.health1).1 = true)
    (htest : test_concurrent_requests c rpt env.responses env.actual_time = none) :
    fmc_go srt lt rpt maxc (env :: rest) c results opt mtp 0 =
      (fmc_go srt lt rpt maxc rest (c + 1) results opt mtp 1).map
        (fun out => (out.1, LoopEvent.roundRun c :: out.2)) := by
  rw [fmc_go_healthy_step srt lt rpt maxc env rest c results opt mtp 0 hc hh, htest]
  norm_num

/-- Second consecutive empty round: the loop stops. -/
lemma fmc_go_noresult_stop (srt lt : ℚ) (rpt maxc : Nat) (env : RoundEnv)
    (rest : List RoundEnv) (c : Nat) (results : List RoundSummary) (opt : Nat)
    (mtp : ℚ) (cf : Nat) (hc : c ≤ maxc) (hcf : 1 ≤ cf)
    (hh : (check_system_health env.health1).1 = true)
    (htest : test_concurrent_requests c rpt env.responses env.actual_time = none) :
    fmc_go srt lt rpt maxc (env :: rest) c results opt mtp cf =
      some (⟨opt, mtp, results.reverse⟩, [LoopEvent.roundRun c]) := by
  rw [fmc_go_healthy_step srt lt rpt maxc env rest c results opt mtp cf hc hh, htest]
  simp only [if_pos (by omega : cf + 1 ≥ 2)]

/-- A usable round below the thresholds records its summary, applies the
best-level update and continues with the failure counter reset to 0. -/
lemma fmc_go_ok_continue (srt lt : ℚ) (rpt maxc : Nat) (env : RoundEnv)
    (rest : List RoundEnv) (c : Nat) (results : List RoundSummary) (opt : Nat)
    (mtp : ℚ) (cf : Nat) (r : RoundSummary) (hc : c ≤ maxc)
    (hh : (check_system_health env.health1).1 = true)
    (htest : test_concurrent_requests c rpt env.responses env.actual_time = some r)
    (hok : ¬ (r.success_rate < srt ∨ r.average_generation_time > lt)) :
    fmc_go srt lt rpt maxc (env :: rest) c results opt mtp cf =
      (fmc_go srt lt rpt maxc rest (c + 1) (r :: results)
          (update_best srt lt c r opt mtp).1 (update_best srt lt c r opt mtp).2 0).map
        (fun out => (out.1, LoopEvent.roundRun c ::
          (if (check_system_health env.health2).1 then LoopEvent.sleepShort
           else LoopEvent.sleepExtended) :: out.2)) := by
  rw [fmc_go_healthy_step srt lt rpt maxc env rest c results opt mtp cf hc hh, htest]
  simp only [if_neg hok]

/-- The loop never raises and never takes the emergency-stop branch: a
healthy gate guarantees the metrics keys exist with CPU/memory below 90, so
the `metrics["cpu_percent"] > 90 or metrics["memory_percent"] > 90` test is
false whenever it is reached. -/
lemma fmc_go_total_no_emergency (srt lt : ℚ) (rpt maxc : Nat) (envs : List RoundEnv) :
    ∀ (c : Nat) (results : List RoundSummary) (opt : Nat) (mtp : ℚ) (cf : Nat),
      ∃ out, fmc_go srt lt rpt maxc envs c results opt mtp cf = some out ∧
        LoopEvent.emergencyStop ∉ out.2 := by
  induction envs with
  | nil =>
    intro c results opt mtp cf
    exact ⟨(⟨opt, mtp, results.reverse⟩, []), rfl, by simp⟩
  | cons env rest ih =>
    intro c results opt mtp cf
    by_cases hmc : maxc < c
    · refine ⟨(⟨opt, mtp, results.reverse⟩, []), ?_, by simp⟩
      simp only [fmc_go, if_pos hmc]
    · by_cases hh : (check_system_health env.health1).1 = true
      · rw [fmc_go_healthy_step srt lt rpt maxc env rest c results opt mtp cf
          (not_lt.mp hmc) hh]
        cases htest : test_concurrent_requests c rpt env.responses env.actual_time with
        | none =>
          by_cases hcf : cf + 1 ≥ 2
          · exact ⟨(⟨opt, mtp, results.reverse⟩, [LoopEvent.roundRun c]),
              by simp only [if_pos hcf], by simp⟩
          · obtain ⟨out1, hout1, hnot1⟩ := ih (c + 1) results opt mtp (cf + 1)
            refine ⟨(out1.1, LoopEvent.roundRun c :: out1.2), ?_, ?_⟩
            · simp only [if_neg hcf, hout1]
              rfl
            · simp [hnot1]
        | some r =>
          by_cases hbr : r.success_rate < srt ∨ r.average_generation_time > lt
          · exact ⟨(⟨(update_best srt lt c r opt mtp).1,
                (update_best srt lt c r opt mtp).2, (r :: results).reverse⟩,
                [LoopEvent.roundRun c]),
              by simp only [if_pos hbr], by simp⟩
          · obtain ⟨out1, hout1, hnot1⟩ := ih (c + 1) (r :: results)
              (update_best srt lt c r opt mtp).1 (update_best srt lt c r opt mtp).2 0
            refine ⟨(out1.1, LoopEvent.roundRun c ::
                (if (check_system_health env.health2).1 then LoopEvent.sleepShort
                 else LoopEvent.sleepExtended) :: out1.2), ?_, ?_⟩
            · simp only [if_neg hbr, hout1]
              rfl
            · by_cases h2 : (check_system_health env.health2).1
              · simp [h2, hnot1]
              · simp [h2, hnot1]
      · have hh2 : (check_system_health env.health1).1 = false :=
          Bool.not_eq_true _ ▸ eq_false_of_ne_true hh
        refine ⟨(⟨opt, mtp, results.reverse⟩, [LoopEvent.sleepExtended]), ?_, by simp⟩
        exact fmc_go_unhealthy_stop srt lt rpt maxc env rest c results opt mtp cf
          (not_lt.mp hmc) hh2

/-- C1: if the pre-round gate passes and the round at concurrency `c` comes
back with `success_rate` below the threshold or average generation time
above the latency threshold, the loop records that round, keeps the
previously recorded best pair untouched, and terminates at `c`: the returned
trace contains no round at any higher concurrency.  When the very first
tested level breaches, the prober returns best concurrency 0 and best
throughput 0 as a normal `some` value. -/
theorem C1_breach_terminates_loop :
    (∀ (srt lt : ℚ) (rpt maxc : Nat) (env : RoundEnv) (rest : List RoundEnv)
        (c : Nat) (results : List RoundSummary) (opt : Nat) (mtp : ℚ) (cf : Nat)
        (r : RoundSummary), c ≤ maxc →
      (check_system_health env.health1).1 = true →
      test_concurrent_requests c rpt env.responses env.actual_time = some r →
      (r.success_rate < srt ∨ r.average_generation_time > lt) →
      fmc_go srt lt rpt maxc (env :: rest) c results opt mtp cf =
        some (⟨opt, mtp, (r :: results).reverse⟩, [LoopEvent.roundRun c])) ∧
    (∀ (srt lt : ℚ) (rpt maxc start : Nat) (env : RoundEnv)
        (rest : List RoundEnv) (r : RoundSummary), start ≤ maxc →
      (check_system_health env.health1).1 = true →
      test_concurrent_requests start rpt env.responses env.actual_time = some r →
      (r.success_rate < srt ∨ r.average_generation_time > lt) →
      find_max_concurrency start maxc rpt srt lt (env :: rest) =
        some (⟨0, 0, [r]⟩, [LoopEvent.roundRun start])) := by
  constructor
  · intro srt lt rpt maxc env rest c results opt mtp cf r hc hh htest hbr
    exact fmc_go_breach_stop srt lt rpt maxc env rest c results opt mtp cf r
      hc hh htest hbr
  · intro srt lt rpt maxc start env rest r hc hh htest hbr
    unfold find_max_concurrency
    exact fmc_go_breach_stop srt lt rpt maxc env rest start [] 0 0 0 r
      hc hh htest hbr

/-- C5: exceeding the 90% CPU or memory ceiling makes the snapshot
unhealthy, and an unhealthy pre-round snapshot stops the prober before the
round is attempted, after the extended cooldown (the trace holds only the
30-second sleep event, no round event).  A memory reading of 95% before
round 1 terminates the prober with zero rounds recorded and best
concurrency 0. -/
theorem C5_pre_round_health_gate :
    (∀ inp : HealthInput, inp.outerExn = false →
      (inp.cpu_percent > 90 ∨ inp.memory_percent > 90) →
      (check_system_health inp).1 = false) ∧
    (∀ (srt lt : ℚ) (rpt maxc : Nat) (env : RoundEnv) (rest : List RoundEnv)
        (c : Nat) (results : List RoundSummary) (opt : Nat) (mtp : ℚ) (cf : Nat),
      c ≤ maxc →
      (check_system_health env.health1).1 = false →
      fmc_go srt lt rpt maxc (env :: rest) c results opt mtp cf =
        some (⟨opt, mtp, results.reverse⟩, [LoopEvent.sleepExtended])) ∧
    (∀ (srt lt : ℚ) (rpt maxc start : Nat) (env : RoundEnv)
        (rest : List RoundEnv), start ≤ maxc →
      env.health1.outerExn = false →
      env.health1.memory_percent = 95 →
      find_max_concurrency start maxc rpt srt lt (env :: rest) =
        some (⟨0, 0, []⟩, [LoopEvent.sleepExtended])) := by
  refine ⟨check_system_health_false_of_over90, ?_, ?_⟩
  · intro srt lt rpt maxc env rest c results opt mtp cf hc hh
    exact fmc_go_unhealthy_stop srt lt rpt maxc env rest c results opt mtp cf hc hh
  · intro srt lt rpt maxc start env rest hc hexn hm95
    have hh : (check_system_health env.health1).1 = false :=
      check_system_health_false_of_over90 env.health1 hexn
        (Or.inr (by rw [hm95]; norm_num))
    unfold find_max_concurrency
    exact fmc_go_unhealthy_stop srt lt rpt maxc env rest start [] 0 0 0 hc hh

/-- C6: an empty round increments the consecutive-failure counter — the
loop stops once two empty rounds happen in a row (counter entering the
round at 1 or more), and otherwise advances to the next level recording no
summary; any usable round resets the counter to 0 in the continuation,
whatever its value was. -/
theorem C6_consecutive_failure_policy :
    (∀ (srt lt : ℚ) (rpt maxc : Nat) (env : RoundEnv) (rest : List RoundEnv)
        (c : Nat) (results : List RoundSummary) (opt : Nat) (mtp : ℚ) (cf : Nat),
      c ≤ maxc → 1 ≤ cf →
      (check_system_health env.health1).1 = true →
      test_concurrent_requests c rpt env.responses env.actual_time = none →
      fmc_go srt lt rpt maxc (env :: rest) c results opt mtp cf =
        some (⟨opt, mtp, results.reverse⟩, [LoopEvent.roundRun c])) ∧
    (∀ (srt lt : ℚ) (rpt maxc : Nat) (env : RoundEnv) (rest : List RoundEnv)
        (c : Nat) (results : List RoundSummary) (opt : Nat) (mtp : ℚ),
      c ≤ maxc →
      (check_system_health env.health1).1 = true →
      test_concurrent_requests c rpt env.responses env.actual_time = none →
      fmc_go srt lt rpt maxc (env :: rest) c results opt mtp 0 =
        (fmc_go srt lt rpt maxc rest (c + 1) results opt mtp 1).map
          (fun out => (out.1, LoopEvent.roundRun c :: out.2))) ∧
    (∀ (srt lt : ℚ) (rpt maxc : Nat) (env : RoundEnv) (rest : List RoundEnv)
        (c : Nat) (results : List RoundSummary) (opt : Nat) (mtp : ℚ) (cf : Nat)
        (r : RoundSummary), c ≤ maxc →
      (check_system_health env.health1).1 = true →
      test_concurrent_requests c rpt env.responses env.actual_time = some r →
      ¬ (r.success_rate < srt ∨ r.average_generation_time > lt) →
      fmc_go srt lt rpt maxc (env :: rest) c results opt mtp cf =
        (fmc_go srt lt rpt maxc rest (c + 1) (r :: results)
            (update_best srt lt c r opt mtp).1 (update_best srt lt c r opt mtp).2 0).map
          (fun out => (out.1, LoopEvent.roundRun c ::
            (if (check_system_health env.health2).1 then LoopEvent.sleepShort
             else LoopEvent.sleepExtended) :: out.2))) := by
  refine ⟨?_, ?_, ?_⟩
  · intro srt lt rpt maxc env rest c results opt mtp cf hc hcf hh htest
    exact fmc_go_noresult_stop srt lt rpt maxc env rest c results opt mtp cf
      hc hcf hh htest
  · intro srt lt rpt maxc env rest c results opt mtp hc hh htest
    exact fmc_go_noresult_continue srt lt rpt maxc env rest c results opt mtp
      hc hh htest
  · intro srt lt rpt maxc env rest c results opt mtp cf r hc hh htest hok
    exact fmc_go_ok_continue srt lt rpt maxc env rest c results opt mtp cf r
      hc hh htest hok

/-- C10: a healthy verdict always comes with both CPU and memory keys
present and strictly below 90, so the emergency-stop branch of the loop is
unreachable and its dictionary lookups cannot fail: the loop always returns
a value (never `none`, the embedded image of a `KeyError`) and its trace
never contains the emergency-stop event. -/
theorem C10_emergency_branch_unreachable :
    (∀ inp : HealthInput, (check_system_health inp).1 = true →
      ∃ m, (check_system_health inp).2 = some m ∧
        m.cpu_percent < 90 ∧ m.memory_percent < 90) ∧
    (∀ (srt lt : ℚ) (rpt maxc : Nat) (envs : List RoundEnv) (c : Nat)
        (results : List RoundSummary) (opt : Nat) (mtp : ℚ) (cf : Nat),
      ∃ out, fmc_go srt lt rpt maxc envs c results opt mtp cf = some out ∧
        LoopEvent.emergencyStop ∉ out.2) := by
  constructor
  · intro inp hh
    obtain ⟨m, hm, _, _, h1, h2⟩ := healthy_metrics inp hh
    exact ⟨m, hm, h1, h2⟩
  · intro srt lt rpt maxc envs c results opt mtp cf
    exact fmc_go_total_no_emergency srt lt rpt maxc envs c results opt mtp cf

/-- C3: whenever a round has at least one successful probe, the summary's
`system_throughput` is the sum of `eval_count` over the successful probes
divided by the round's wall-clock span (not the average of the per-probe
`tokens_per_second` figures, from which it differs in general); a round with
zero successes yields `none` and the prober then passes its results list on
unchanged, so no 0-throughput entry is ever recorded. -/
theorem C3_system_throughput_wall_clock :
    (∀ (c tr : Nat) (responses : List ProbeResult) (t : ℚ),
      responses.filter ProbeResult.isSuccess ≠ [] →
      ∃ s, test_concurrent_requests c tr responses t = some s ∧
        s.system_throughput =
          (((responses.filter ProbeResult.isSuccess).map ProbeResult.eval_count).sum : ℚ)
            / t ∧
        s.actual_total_time = t) ∧
    (∀ (c tr : Nat) (responses : List ProbeResult) (t : ℚ),
      responses.filter ProbeResult.isSuccess = [] →
      test_concurrent_requests c tr responses t = none) ∧
    (∀ (srt lt : ℚ) (rpt maxc : Nat) (env : RoundEnv) (rest : List RoundEnv)
        (c : Nat) (results : List RoundSummary) (opt : Nat) (mtp : ℚ), c ≤ maxc →
      (check_system_health env.health1).1 = true →
      test_concurrent_requests c rpt env.responses env.actual_time = none →
      fmc_go srt lt rpt maxc (env :: rest) c results opt mtp 0 =
        (fmc_go srt lt rpt maxc rest (c + 1) results opt mtp 1).map
          (fun out => (out.1, LoopEvent.roundRun c :: out.2))) ∧
    (∃ s : RoundSummary,
      test_concurrent_requests 2 2
        [ProbeResult.success 10 1 1 20, ProbeResult.success 30 1 1 30] 1 = some s ∧
      s.system_throughput ≠ s.average_tokens_per_second) := by
  refine ⟨?_, ?_, ?_, ?_⟩
  · intro c tr responses t hne
    unfold test_concurrent_requests
    rw [if_neg (by simpa [List.isEmpty_iff] using hne)]
    exact ⟨_, rfl, rfl, rfl⟩
  · intro c tr responses t hemp
    unfold test_concurrent_requests
    rw [if_pos (by simpa [List.isEmpty_iff] using hemp)]
  · intro srt lt rpt maxc env rest c results opt mtp hc hh htest
    exact fmc_go_noresult_continue srt lt rpt maxc env rest c results opt mtp
      hc hh htest
  · refine ⟨⟨2, 2, 2 / 2, 40, 1, 1, 25, 1, 40⟩, ?_, by norm_num⟩
    norm_num [test_concurrent_requests, ProbeResult.isSuccess, ProbeResult.eval_count,
      ProbeResult.eval_duration_seconds, ProbeResult.total_duration_seconds,
      ProbeResult.tokens_per_second]

/-- Witness for C1: a first-round success rate of 1/4 against a 0.8
threshold stops the search with the degenerate (0, 0) best. -/
theorem C1_breach_terminates_loop_witness :
    (1 : Nat) ≤ 20 ∧
    (check_system_health (HealthInput.mk false 50 60 none)).1 = true ∧
    test_concurrent_requests 1 4
      [ProbeResult.success 10 1 2 3, ProbeResult.failure "a",
       ProbeResult.failure "b", ProbeResult.failure "c"] 1 =
      some ⟨1, 4, 1 / 4, 10, 1, 2, 3, 1, 10⟩ ∧
    ((⟨1, 4, 1 / 4, 10, 1, 2, 3, 1, 10⟩ : RoundSummary).success_rate < 8 / 10 ∨
      (⟨1, 4, 1 / 4, 10, 1, 2, 3, 1, 10⟩ : RoundSummary).average_generation_time
        > 10) ∧
    find_max_concurrency 1 20 4 (8 / 10) 10
      [RoundEnv.mk (HealthInput.mk false 50 60 none)
        [ProbeResult.success 10 1 2 3, ProbeResult.failure "a",
         ProbeResult.failure "b", ProbeResult.failure "c"] 1
        (HealthInput.mk false 50 60 none)] =
      some (⟨0, 0, [⟨1, 4, 1 / 4, 10, 1, 2, 3, 1, 10⟩]⟩, [LoopEvent.roundRun 1]) := by
  have hh : (check_system_health (HealthInput.mk false 50 60 none)).1 = true := by
    norm_num [check_system_health]
  have htest : test_concurrent_requests 1 4
      [ProbeResult.success 10 1 2 3, ProbeResult.failure "a",
       ProbeResult.failure "b", ProbeResult.failure "c"] 1 =
      some ⟨1, 4, 1 / 4, 10, 1, 2, 3, 1, 10⟩ := by
    norm_num [test_concurrent_requests, ProbeResult.isSuccess, ProbeResult.eval_count,
      ProbeResult.eval_duration_seconds, ProbeResult.total_duration_seconds,
      ProbeResult.tokens_per_second]
  have hbr : ((⟨1, 4, 1 / 4, 10, 1, 2, 3, 1, 10⟩ : RoundSummary).success_rate
      < 8 / 10 ∨
    (⟨1, 4, 1 / 4, 10, 1, 2, 3, 1, 10⟩ : RoundSummary).average_generation_time
      > 10) := Or.inl (by norm_num)
  exact ⟨by norm_num, hh, htest, hbr,
    C1_breach_terminates_loop.2 (8 / 10) 10 4 20 1
      (RoundEnv.mk (HealthInput.mk false 50 60 none)
        [ProbeResult.success 10 1 2 3, ProbeResult.failure "a",
         ProbeResult.failure "b", ProbeResult.failure "c"] 1
        (HealthInput.mk false 50 60 none)) [] ⟨1, 4, 1 / 4, 10, 1, 2, 3, 1, 10⟩
      (by norm_num) hh htest hbr⟩

/-- Witness for C3 at a one-success round and at an all-failure round. -/
theorem C3_system_throughput_wall_clock_witness :
    (([ProbeResult.success 10 1 2 3] : List ProbeResult).filter
        ProbeResult.isSuccess ≠ []) ∧
    (∃ s, test_concurrent_requests 1 1 [ProbeResult.success 10 1 2 3] 2 = some s ∧
      s.system_throughput =
        ((([ProbeResult.success 10 1 2 3] : List ProbeResult).filter
            ProbeResult.isSuccess).map ProbeResult.eval_count).sum / (2 : ℚ) ∧
      s.actual_total_time = 2) ∧
    (([ProbeResult.failure "x"] : List ProbeResult).filter
        ProbeResult.isSuccess = []) ∧
    test_concurrent_requests 1 1 [ProbeResult.failure "x"] 2 = none := by
  have hne : (([ProbeResult.success 10 1 2 3] : List ProbeResult).filter
      ProbeResult.isSuccess ≠ []) := by
    simp [ProbeResult.isSuccess]
  have hemp : (([ProbeResult.failure "x"] : List ProbeResult).filter
      ProbeResult.isSuccess = []) := by
    simp [ProbeResult.isSuccess]
  exact ⟨hne, C3_system_throughput_wall_clock.1 1 1 [ProbeResult.success 10 1 2 3] 2 hne,
    hemp, C3_system_throughput_wall_clock.2.1 1 1 [ProbeResult.failure "x"] 2 hemp⟩

/-- Witness for C5: memory at 95% before round 1 terminates the prober with
zero rounds recorded and best concurrency 0. -/
theorem C5_pre_round_health_gate_witness :
    (1 : Nat) ≤ 20 ∧
    (RoundEnv.mk (HealthInput.mk false 50 95 none) [] 1
        (HealthInput.mk false 50 95 none)).health1.outerExn = false ∧
    (RoundEnv.mk (HealthInput.mk false 50 95 none) [] 1
        (HealthInput.mk false 50 95 none)).health1.memory_percent = 95 ∧
    find_max_concurrency 1 20 5 (8 / 10) 10
      [RoundEnv.mk (HealthInput.mk false 50 95 none) [] 1
        (HealthInput.mk false 50 95 none)] =
      some (⟨0, 0, []⟩, [LoopEvent.sleepExtended]) :=
  ⟨by norm_num, rfl, rfl,
    C5_pre_round_health_gate.2.2 (8 / 10) 10 5 20 1
      (RoundEnv.mk (HealthInput.mk false 50 95 none) [] 1
        (HealthInput.mk false 50 95 none)) [] (by norm_num) rfl rfl⟩

/-- Witness for C6: a single empty round with the counter at 0 advances to
the next concurrency level without recording a summary. -/
theorem C6_consecutive_failure_policy_witness :
    (1 : Nat) ≤ 20 ∧
    (check_system_health (HealthInput.mk false 50 60 none)).1 = true ∧
    test_concurrent_requests 1 1 [ProbeResult.failure "x"] 1 = none ∧
    fmc_go (8 / 10) 10 1 20
      [RoundEnv.mk (HealthInput.mk false 50 60 none) [ProbeResult.failure "x"] 1
        (HealthInput.mk false 50 60 none)] 1 [] 0 0 0 =
      (fmc_go (8 / 10) 10 1 20 [] 2 [] 0 0 1).map
        (fun out => (out.1, LoopEvent.roundRun 1 :: out.2)) := by
  have hh : (check_system_health (HealthInput.mk false 50 60 none)).1 = true := by
    norm_num [check_system_health]
  have htest : test_concurrent_requests 1 1 [ProbeResult.failure "x"] 1 = none := by
    norm_num [test_concurrent_requests, ProbeResult.isSuccess]
  exact ⟨by norm_num, hh, htest,
    C6_consecutive_failure_policy.2.1 (8 / 10) 10 1 20
      (RoundEnv.mk (HealthInput.mk false 50 60 none) [ProbeResult.failure "x"] 1
        (HealthInput.mk false 50 60 none)) [] 1 [] 0 0 (by norm_num) hh htest⟩

/-- Witness for C10 at a concrete healthy sample and a concrete loop run. -/
theorem C10_emergency_branch_unreachable_witness :
    (check_system_health (HealthInput.mk false 50 60 none)).1 = true ∧
    (∃ m, (check_system_health (HealthInput.mk false 50 60 none)).2 = some m ∧
      m.cpu_percent < 90 ∧ m.memory_percent < 90) ∧
    (∃ out, fmc_go (8 / 10) 10 5 20 [] 1 [] 0 0 0 = some out ∧
      LoopEvent.emergencyStop ∉ out.2) := by
  have hh : (check_system_health (HealthInput.mk false 50 60 none)).1 = true := by
    norm_num [check_system_health]
  exact ⟨hh, C10_emergency_branch_unreachable.1 _ hh,
    C10_emergency_branch_unreachable.2 (8 / 10) 10 5 20 [] 1 [] 0 0 0⟩
